import Mathlib

/- Shallow embedding of the GPST client core (src/gpst.c): cookie parsing,
   the GET-tunnel connect handshake, and the mainloop framing engine.
   Bytes are modelled as natural numbers (values < 256 wherever the code
   produces them); buffers are lists of bytes. -/

set_option maxRecDepth 10000

namespace GPST

/-- Big-endian 32-bit load from a byte buffer at offset `i` (`load_be32`). -/
def load_be32 (l : List Nat) (i : Nat) : Nat :=
  l.getD i 0 * 16777216 + l.getD (i + 1) 0 * 65536 + l.getD (i + 2) 0 * 256 + l.getD (i + 3) 0

/-- Big-endian 16-bit load from a byte buffer at offset `i` (`load_be16`). -/
def load_be16 (l : List Nat) (i : Nat) : Nat :=
  l.getD i 0 * 256 + l.getD (i + 1) 0

/-- Little-endian 32-bit load from a byte buffer at offset `i` (`load_le32`). -/
def load_le32 (l : List Nat) (i : Nat) : Nat :=
  l.getD i 0 + l.getD (i + 1) 0 * 256 + l.getD (i + 2) 0 * 65536 + l.getD (i + 3) 0 * 16777216

/-- Bytes emitted by `store_be32` (value truncated to 32 bits as in C). -/
def store_be32 (v : Nat) : List Nat :=
  [v / 16777216 % 256, v / 65536 % 256, v / 256 % 256, v % 256]

/-- Bytes emitted by `store_be16`. -/
def store_be16 (v : Nat) : List Nat :=
  [v / 256 % 256, v % 256]

/-- Bytes emitted by `store_le32`. -/
def store_le32 (v : Nat) : List Nat :=
  [v % 256, v / 256 % 256, v / 65536 % 256, v / 16777216 % 256]

/-- Frame validation failures of the header checks in `gpst_mainloop`
    (lines 238-268 of src/gpst.c), named as in the spec. -/
inductive FrameError where
  | ShortHeader
  | BadMagic
  | BadEtherType
  | LengthMismatch
  | BadTrailer
  deriving DecidableEq

/-- Frame decoding, exactly the header validation sequence of
    `gpst_mainloop`: short-buffer check, then magic, ethertype,
    declared-length and trailer checks, in the source's order. On success
    it yields the ethertype and the payload after the 16-byte header. -/
def gpst_decode (buf : List Nat) : Except FrameError (Nat × List Nat) :=
  if buf.length < 16 then .error .ShortHeader
  else if load_be32 buf 0 ≠ 0x1a2b3c4d then .error .BadMagic
  else if load_be16 buf 4 ≠ 0x800 then .error .BadEtherType
  else if buf.length ≠ 16 + load_be16 buf 6 then .error .LengthMismatch
  else if load_le32 buf 8 ≠ 1 ∨ load_le32 buf 12 ≠ 0 then .error .BadTrailer
  else .ok (load_be16 buf 4, buf.drop 16)

/-- The 16-byte frame header stored by the queue-service phase of
    `gpst_mainloop` (lines 331-335 of src/gpst.c): magic, IPv4 ethertype,
    big-endian 16-bit length, little-endian trailer words 1 and 0. -/
def encodeHdr (len : Nat) : List Nat :=
  store_be32 0x1a2b3c4d ++ store_be16 0x800 ++ store_be16 len ++ store_le32 1 ++ store_le32 0

/-- Frame encoding: the header followed by the payload verbatim. The source
    has no failure path here; `store_be16` truncates the length to 16 bits. -/
def gpst_encode (payload : List Nat) : List Nat :=
  encodeHdr payload.length ++ payload

end GPST

namespace GPST

/-- Helper: the encoded header as an explicit byte list for in-range lengths. -/
theorem encodeHdr_eq (n : Nat) (h : n ≤ 65535) :
    encodeHdr n = [26, 43, 60, 77, 8, 0, n / 256, n % 256, 1, 0, 0, 0, 0, 0, 0, 0] := by
  have hdiv : n / 256 % 256 = n / 256 := Nat.mod_eq_of_lt (by omega)
  simp [encodeHdr, store_be32, store_be16, store_le32, hdiv]

/-- C1: frame codec round-trip. For every payload of length at most 65535,
    decoding the encoding of that payload succeeds and yields ethertype
    0x0800 and the original payload verbatim. -/
theorem gpst_frame_roundtrip (pl : List Nat) (h : pl.length ≤ 65535) :
    gpst_decode (gpst_encode pl) = .ok (0x800, pl) := by
  have henc : gpst_encode pl =
      26 :: 43 :: 60 :: 77 :: 8 :: 0 :: (pl.length / 256) :: (pl.length % 256) ::
        1 :: 0 :: 0 :: 0 :: 0 :: 0 :: 0 :: 0 :: pl := by
    rw [gpst_encode, encodeHdr_eq pl.length h]
    rfl
  rw [henc]
  have hlen : (26 :: 43 :: 60 :: 77 :: 8 :: 0 :: (pl.length / 256) :: (pl.length % 256) ::
      1 :: 0 :: 0 :: 0 :: 0 :: 0 :: 0 :: 0 :: pl).length = 16 + pl.length := by
    simp
    omega
  have hmagic : load_be32 (26 :: 43 :: 60 :: 77 :: 8 :: 0 :: (pl.length / 256) ::
      (pl.length % 256) :: 1 :: 0 :: 0 :: 0 :: 0 :: 0 :: 0 :: 0 :: pl) 0 = 0x1a2b3c4d := by
    show 26 * 16777216 + 43 * 65536 + 60 * 256 + 77 = 0x1a2b3c4d
    norm_num
  have hether : load_be16 (26 :: 43 :: 60 :: 77 :: 8 :: 0 :: (pl.length / 256) ::
      (pl.length % 256) :: 1 :: 0 :: 0 :: 0 :: 0 :: 0 :: 0 :: 0 :: pl) 4 = 0x800 := by
    show 8 * 256 + 0 = 0x800
    norm_num
  have hdecl : load_be16 (26 :: 43 :: 60 :: 77 :: 8 :: 0 :: (pl.length / 256) ::
      (pl.length % 256) :: 1 :: 0 :: 0 :: 0 :: 0 :: 0 :: 0 :: 0 :: pl) 6 = pl.length := by
    show pl.length / 256 * 256 + pl.length % 256 = pl.length
    omega
  have ht1 : load_le32 (26 :: 43 :: 60 :: 77 :: 8 :: 0 :: (pl.length / 256) ::
      (pl.length % 256) :: 1 :: 0 :: 0 :: 0 :: 0 :: 0 :: 0 :: 0 :: pl) 8 = 1 := by
    show 1 + 0 * 256 + 0 * 65536 + 0 * 16777216 = 1
    norm_num
  have ht2 : load_le32 (26 :: 43 :: 60 :: 77 :: 8 :: 0 :: (pl.length / 256) ::
      (pl.length % 256) :: 1 :: 0 :: 0 :: 0 :: 0 :: 0 :: 0 :: 0 :: pl) 12 = 0 := by
    show 0 + 0 * 256 + 0 * 65536 + 0 * 16777216 = 0
    norm_num
  have hdrop : (26 :: 43 :: 60 :: 77 :: 8 :: 0 :: (pl.length / 256) :: (pl.length % 256) ::
      1 :: 0 :: 0 :: 0 :: 0 :: 0 :: 0 :: 0 :: pl).drop 16 = pl := rfl
  rw [gpst_decode, hlen, hmagic, hether, hdecl, ht1, ht2, hdrop]
  simp

/-- C1 witness: the round-trip evaluated at the concrete payload [1, 2, 3]. -/
theorem gpst_frame_roundtrip_witness :
    gpst_decode (gpst_encode [1, 2, 3]) = .ok (0x800, [1, 2, 3]) :=
  gpst_frame_roundtrip [1, 2, 3] (by decide)

end GPST

namespace GPST

/-- C2 (amended): decode failures characterized with the source's check
    order. ShortHeader arises exactly on buffers shorter than 16 bytes;
    each later error arises exactly when its own field check fails and all
    earlier checks passed; decoding succeeds exactly when every check
    passes. -/
theorem gpst_decode_first_failure (buf : List Nat) :
    (gpst_decode buf = .error .ShortHeader ↔ buf.length < 16)
  ∧ (gpst_decode buf = .error .BadMagic ↔
      16 ≤ buf.length ∧ load_be32 buf 0 ≠ 0x1a2b3c4d)
  ∧ (gpst_decode buf = .error .BadEtherType ↔
      16 ≤ buf.length ∧ load_be32 buf 0 = 0x1a2b3c4d ∧ load_be16 buf 4 ≠ 0x800)
  ∧ (gpst_decode buf = .error .LengthMismatch ↔
      16 ≤ buf.length ∧ load_be32 buf 0 = 0x1a2b3c4d ∧ load_be16 buf 4 = 0x800 ∧
      buf.length ≠ 16 + load_be16 buf 6)
  ∧ (gpst_decode buf = .error .BadTrailer ↔
      16 ≤ buf.length ∧ load_be32 buf 0 = 0x1a2b3c4d ∧ load_be16 buf 4 = 0x800 ∧
      buf.length = 16 + load_be16 buf 6 ∧
      (load_le32 buf 8 ≠ 1 ∨ load_le32 buf 12 ≠ 0))
  ∧ (gpst_decode buf = .ok (load_be16 buf 4, buf.drop 16) ↔
      16 ≤ buf.length ∧ load_be32 buf 0 = 0x1a2b3c4d ∧ load_be16 buf 4 = 0x800 ∧
      buf.length = 16 + load_be16 buf 6 ∧
      load_le32 buf 8 = 1 ∧ load_le32 buf 12 = 0) := by
  unfold gpst_decode
  split_ifs with h1 h2 h3 h4 h5 <;> simp_all
  omega

/-- C2 counterexample: a 15-byte all-zero buffer has its first four
    big-endian bytes different from the magic 0x1a2b3c4d, yet decoding
    fails with ShortHeader rather than BadMagic, so "fails with BadMagic
    exactly when the magic mismatches" does not hold as stated. -/
theorem gpst_decode_shortheader_beats_badmagic :
    gpst_decode (List.replicate 15 0) = .error .ShortHeader
  ∧ load_be32 (List.replicate 15 0) 0 ≠ 0x1a2b3c4d
  ∧ (Except.error FrameError.ShortHeader : Except FrameError (Nat × List Nat)) ≠
      .error .BadMagic := by
  refine ⟨by rfl, by decide, by simp⟩

/-- C8 (amended): the encoder has no failure path; the declared 16-bit
    length field of every encoded frame is the payload length reduced
    modulo 65536, so it matches the actual payload length exactly when the
    payload is at most 65535 bytes long. -/
theorem gpst_encode_declared_length (pl : List Nat) :
    load_be16 (gpst_encode pl) 6 = pl.length % 65536
  ∧ (gpst_encode pl).length = 16 + pl.length
  ∧ (pl.length ≤ 65535 → load_be16 (gpst_encode pl) 6 = pl.length) := by
  have h6 : load_be16 (gpst_encode pl) 6 = pl.length / 256 % 256 * 256 + pl.length % 256 := rfl
  refine ⟨?_, ?_, ?_⟩
  · rw [h6]; omega
  · simp [gpst_encode, encodeHdr, store_be32, store_be16, store_le32]
    omega
  · intro h; rw [h6]; omega

/-- C8 witness: the declared length of the encoding of the one-byte payload
    [5] is 1, obtained from the amended theorem with its hypothesis
    discharged at this concrete payload. -/
theorem gpst_encode_declared_length_witness :
    load_be16 (gpst_encode [5]) 6 = [5].length :=
  (gpst_encode_declared_length [5]).2.2 (by decide)

/-- C8 counterexample: a payload of 65536 zero bytes is encoded without any
    failure path being taken, and the emitted header declares length 0
    (65536 mod 65536), which differs from the actual payload length: the
    source encoder neither fails on oversized payloads nor keeps the
    declared length equal to the actual one. -/
theorem gpst_encode_oversize_silent :
    load_be16 (gpst_encode (List.replicate 65536 0)) 6 = 0
  ∧ (List.replicate 65536 0).length = 65536
  ∧ (0 : Nat) ≠ 65536 := by
  have he : encodeHdr 65536 = [26, 43, 60, 77, 8, 0, 0, 0, 1, 0, 0, 0, 0, 0, 0, 0] := by
    norm_num [encodeHdr, store_be32, store_be16, store_le32]
  have henc : gpst_encode (List.replicate 65536 0) =
      [26, 43, 60, 77, 8, 0, 0, 0, 1, 0, 0, 0, 0, 0, 0, 0] ++ List.replicate 65536 0 := by
    rw [gpst_encode, List.length_replicate, he]
  refine ⟨?_, by rw [List.length_replicate], by decide⟩
  rw [henc]
  show (0 : Nat) * 256 + 0 = 0
  norm_num

end GPST
namespace GPST

/-- C `isspace` on the characters the cookie parser can encounter. -/
def c_isspace (c : Char) : Bool :=
  c = ' ' || c = '\t' || c = '\n' || c = '\x0b' || c = '\x0c' || c = '\r'

/-- The leading-whitespace skip run after each semicolon
    (`while (*p && isspace(*p)) p++`, src/gpst.c lines 95-96). -/
def dropSpaces : List Char → List Char
  | [] => []
  | c :: cs => if c_isspace c then dropSpaces cs else c :: cs

/-- `strchr`: the part of the string before the first occurrence of `c`
    and, when `c` occurs, the part after it. -/
def splitAtChar (c : Char) : List Char → List Char × Option (List Char)
  | [] => ([], none)
  | x :: xs =>
    if x = c then ([], some xs)
    else
      let r := splitAtChar c xs
      (x :: r.1, r.2)

/-- Modelled from the spec: `http_add_cookie` (in this repository's http.c,
    which is not under src/) called with `replace = 0` as `parse_cookie`
    does; per the spec a cookie already present in the store is never
    overwritten, so the first occurrence of a key wins and a new key is
    appended. -/
def http_add_cookie (st : List (String × String)) (k v : String) :
    List (String × String) :=
  if st.any (fun kv => kv.1 = k) then st else st ++ [(k, v)]

theorem splitAtChar_rest_length (c : Char) :
    ∀ (l r : List Char), (splitAtChar c l).2 = some r → r.length < l.length := by
  intro l
  induction l with
  | nil => intro r h; simp [splitAtChar] at h
  | cons x xs ih =>
    intro r h
    by_cases hx : x = c
    · simp [splitAtChar, hx] at h
      subst h
      simp
    · simp [splitAtChar, hx] at h
      have := ih r h
      simp
      omega

theorem dropSpaces_length_le : ∀ l : List Char, (dropSpaces l).length ≤ l.length := by
  intro l
  induction l with
  | nil => simp [dropSpaces]
  | cons c cs ih =>
    by_cases hc : c_isspace c <;> simp [dropSpaces, hc] <;> omega

/-- The field loop of `parse_cookie` (src/gpst.c lines 75-98): cut the
    remaining cookie string at the next semicolon, split that field at its
    first equals sign — no equals sign is the -EINVAL error — record the
    key/value pair via `http_add_cookie`, then continue after the
    semicolon with leading whitespace skipped; an exhausted remainder ends
    the loop successfully. -/
def parse_cookie_aux (st : List (String × String)) (l : List Char) :
    Except Unit (List (String × String)) :=
  match l with
  | [] => .ok st
  | x :: xs =>
    match hs : splitAtChar ';' (x :: xs) with
    | (field, rest) =>
      match splitAtChar '=' field with
      | (_, none) => .error ()
      | (k, some v) =>
        match rest with
        | none => .ok (http_add_cookie st ⟨k⟩ ⟨v⟩)
        | some r => parse_cookie_aux (http_add_cookie st ⟨k⟩ ⟨v⟩) (dropSpaces r)
termination_by l.length
decreasing_by
  have h1 : r.length < (c :: cs).length := by
    apply splitAtChar_rest_length ';' (c :: cs)
    rw [hs]
  have h2 := dropSpaces_length_le r
  omega

/-- `parse_cookie` (src/gpst.c lines 67-101), starting from the empty
    store: `gpst_connect` only invokes it when `vpninfo->cookies` is
    empty. -/
def parse_cookie (raw : String) : Except Unit (List (String × String)) :=
  parse_cookie_aux [] raw.data

end GPST
namespace GPST

/-- Claim-side field list: the raw cookie string split on semicolons, with
    leading whitespace trimmed from every field after the first; a trailing
    empty remainder produces no field, exactly as the C loop condition
    `while (p && *p)` ends the walk. -/
def cookieFields (l : List Char) : List (List Char) :=
  match l with
  | [] => []
  | x :: xs =>
    match hs : splitAtChar ';' (x :: xs) with
    | (field, none) => [field]
    | (field, some r) => field :: cookieFields (dropSpaces r)
termination_by l.length
decreasing_by
  have h1 : r.length < (c :: cs).length := by
    apply splitAtChar_rest_length ';' (c :: cs)
    rw [hs]
  have h2 := dropSpaces_length_le r
  omega

theorem cookieFields_cons_none (x : Char) (xs field : List Char)
    (h : splitAtChar ';' (x :: xs) = (field, none)) :
    cookieFields (x :: xs) = [field] := by
  rw [cookieFields]
  split
  next f hs => rw [h] at hs; injection hs with h1 h2; rw [h1]
  next f r hs => rw [h] at hs; injection hs with h1 h2; simp at h2

theorem cookieFields_cons_some (x : Char) (xs field r : List Char)
    (h : splitAtChar ';' (x :: xs) = (field, some r)) :
    cookieFields (x :: xs) = field :: cookieFields (dropSpaces r) := by
  rw [cookieFields]
  split
  next f hs => rw [h] at hs; injection hs with h1 h2; simp at h2
  next f r2 hs =>
    rw [h] at hs; injection hs with h1 h2; injection h2 with h2; rw [h1, h2]

/-- Claim-side per-field action: split the field at its first equals sign
    into key and value; `none` marks a field without an equals sign. -/
def fieldKV (f : List Char) : Option (String × String) :=
  match splitAtChar '=' f with
  | (_, none) => none
  | (k, some v) => some (⟨k⟩, ⟨v⟩)

/-- Key/value pairs of all fields, or `none` if some field is malformed. -/
def allKV : List (List Char) → Option (List (String × String))
  | [] => some []
  | f :: fs =>
    match fieldKV f with
    | none => none
    | some kv =>
      match allKV fs with
      | none => none
      | some kvs => some (kv :: kvs)

/-- Claim-side parser: split into fields, require an equals sign in every
    field, then record the pairs in order into an initially empty store
    with first-occurrence-wins (`http_add_cookie`) semantics. -/
def spec_parse_cookie (l : List Char) : Except Unit (List (String × String)) :=
  match allKV (cookieFields l) with
  | none => .error ()
  | some kvs => .ok (kvs.foldl (fun st kv => http_add_cookie st kv.1 kv.2) [])

theorem parse_cookie_aux_eq_spec (st : List (String × String)) (l : List Char) :
    parse_cookie_aux st l =
      match allKV (cookieFields l) with
      | none => .error ()
      | some kvs => .ok (kvs.foldl (fun acc kv => http_add_cookie acc kv.1 kv.2) st) := by
  induction st, l using parse_cookie_aux.induct with
  | case1 st => simp [parse_cookie_aux, cookieFields, allKV]
  | case2 st c cs field rest hs f hx =>
    have hl : parse_cookie_aux st (c :: cs) = .error () := by
      simp only [parse_cookie_aux, hs, hx]
    rw [hl]
    cases rest with
    | none =>
      rw [cookieFields_cons_none c cs field hs]
      simp [allKV, fieldKV, hx]
    | some r =>
      rw [cookieFields_cons_some c cs field r hs]
      simp [allKV, fieldKV, hx]
  | case3 st c cs field k v hx hs1 hs =>
    rw [cookieFields_cons_none c cs field hs]
    simp only [parse_cookie_aux, hs, hx, allKV, fieldKV]
    split
    next hrest hheq =>
      simp
    next r2 hrest hheq =>
      have h0 := hrest
      rw [hs] at h0
      simp at h0
  | case4 st c cs field k v hx r hs1 hs ih1 =>
    rw [cookieFields_cons_some c cs field r hs]
    simp only [parse_cookie_aux, hs, hx, allKV, fieldKV]
    split
    next hrest hheq =>
      have h0 := hrest
      rw [hs] at h0
      simp at h0
    next r2 hrest hheq =>
      have h0 := hrest
      rw [hs] at h0
      simp only [Option.some.injEq] at h0
      subst h0
      rw [ih1]
      cases hk : allKV (cookieFields (dropSpaces r)) with
      | none => simp
      | some kvs => simp

end GPST
namespace GPST

theorem http_add_cookie_find? (st : List (String × String)) (k v key : String) :
    (http_add_cookie st k v).find? (fun kv => kv.1 = key) =
      (st.find? (fun kv => kv.1 = key)).or
        (if k = key then some (k, v) else none) := by
  unfold http_add_cookie
  by_cases hany : st.any (fun kv => kv.1 = k) = true
  · rw [if_pos hany]
    cases hf : st.find? (fun kv => kv.1 = key) with
    | some a => simp
    | none =>
      rw [List.find?_eq_none] at hf
      rw [List.any_eq_true] at hany
      obtain ⟨kv0, hkv0, hk0⟩ := hany
      have hne : k ≠ key := by
        intro hkk
        apply hf kv0 hkv0
        simp only [decide_eq_true_eq] at hk0 ⊢
        rw [hk0, hkk]
      rw [if_neg hne]
      simp
  · rw [if_neg hany, List.find?_append]
    congr 1
    by_cases hk : k = key
    · rw [List.find?_cons_of_pos _ (by simp [hk]), if_pos hk]
    · rw [List.find?_cons_of_neg _ (by simp [hk]), if_neg hk]
      simp

theorem foldl_add_find? (kvs : List (String × String)) :
    ∀ (st : List (String × String)) (key : String),
      ((kvs.foldl (fun acc kv => http_add_cookie acc kv.1 kv.2) st).find?
          (fun kv => kv.1 = key)) =
        (st.find? (fun kv => kv.1 = key)).or
          (kvs.find? (fun kv => kv.1 = key)) := by
  induction kvs with
  | nil => intro st key; simp
  | cons kv kvs ih =>
    intro st key
    rw [List.foldl_cons, ih, http_add_cookie_find?, Option.or_assoc]
    congr 1
    by_cases hk : kv.1 = key
    · rw [if_pos hk, List.find?_cons_of_pos _ (by simp [hk])]
      simp
    · rw [if_neg hk, List.find?_cons_of_neg _ (by simp [hk])]
      simp

theorem allKV_eq_none_iff (fs : List (List Char)) :
    allKV fs = none ↔ ∃ f ∈ fs, fieldKV f = none := by
  induction fs with
  | nil => simp [allKV]
  | cons f fs ih =>
    cases hf : fieldKV f with
    | none => simp [allKV, hf]
    | some kv =>
      cases hk : allKV fs with
      | none => simp [allKV, hf, hk, ← ih]
      | some kvs => simp [allKV, hf, hk, ← ih]

/-- C7: `parse_cookie` splits the raw string on semicolons, trims leading
    whitespace from every field after the first, splits each field at its
    first equals sign (`spec_parse_cookie` spells out exactly this
    reading), fails with -EINVAL (MalformedCookie) exactly when some field
    has no equals sign, succeeds on empty input with an empty store, and
    on duplicate keys keeps only the first occurrence: a key lookup in the
    resulting store finds the first field with that key. -/
theorem parse_cookie_correct (raw : String) :
    parse_cookie raw = spec_parse_cookie raw.data
  ∧ parse_cookie ⟨[]⟩ = .ok []
  ∧ (parse_cookie raw = .error () ↔ ∃ f ∈ cookieFields raw.data, fieldKV f = none)
  ∧ (∀ st, parse_cookie raw = .ok st →
      ∀ kvs, allKV (cookieFields raw.data) = some kvs →
        ∀ key, st.find? (fun kv => kv.1 = key) = kvs.find? (fun kv => kv.1 = key)) := by
  have href : parse_cookie raw = spec_parse_cookie raw.data := by
    rw [parse_cookie, spec_parse_cookie, parse_cookie_aux_eq_spec]
  refine ⟨href, by simp [parse_cookie, parse_cookie_aux], ?_, ?_⟩
  · rw [href, spec_parse_cookie, ← allKV_eq_none_iff]
    cases hk : allKV (cookieFields raw.data) with
    | none => simp
    | some kvs => simp
  · intro st hok kvs hkvs key
    rw [href, spec_parse_cookie, hkvs] at hok
    have hst : st = kvs.foldl (fun acc kv => http_add_cookie acc kv.1 kv.2) [] := by
      injection hok with h
      rw [h]
    rw [hst, foldl_add_find?]
    simp

/-- C7 witness: parsing the duplicate-key cookie string USER=a;USER=b
    keeps only the first occurrence; the lookup fact is obtained from the
    theorem with all hypotheses discharged at this concrete input. -/
theorem parse_cookie_correct_witness :
    ([("USER", "a")] : List (String × String)).find? (fun kv => kv.1 = "USER") =
      [("USER", "a"), ("USER", "b")].find? (fun kv => kv.1 = "USER") :=
  (parse_cookie_correct "USER=a;USER=b").2.2.2 [("USER", "a")]
    (by simp [parse_cookie, parse_cookie_aux, splitAtChar, dropSpaces, http_add_cookie,
          c_isspace])
    [("USER", "a"), ("USER", "b")]
    (by simp [cookieFields, splitAtChar, dropSpaces, allKV, fieldKV, c_isspace])
    "USER"

end GPST
namespace GPST

/-- C `atoi` digit-consuming loop. -/
def atoiDigits (acc : Nat) : List Char → Nat
  | [] => acc
  | c :: cs => if c.isDigit then atoiDigits (acc * 10 + (c.toNat - 48)) cs else acc

/-- C `atoi`: skip leading whitespace, read an optional sign and then
    decimal digits; yields 0 when no digits are present. -/
def atoi (s : String) : Int :=
  match dropSpaces s.data with
  | '-' :: cs => - (atoiDigits 0 cs : Int)
  | '+' :: cs => (atoiDigits 0 cs : Int)
  | cs => (atoiDigits 0 cs : Int)

/-- The cookie-scanning loop of `gpst_connect` (src/gpst.c lines 121-132):
    each matching cookie overwrites the local variable, so the value of
    the last cookie with the given name wins. -/
def lastAssign (cookies : List (String × String)) (k : String) : Option String :=
  cookies.foldl (fun acc kv => if kv.1 = k then some kv.2 else acc) none

/-- The session parameters derived by `gpst_connect` before the handshake. -/
structure SessionParams where
  tunnel_path : String
  username : String
  authcookie : String
  ipaddr : String
  mtu : Int
  deriving DecidableEq

/-- The `mtu` local of `gpst_connect`: it starts at -1 and each MTU cookie
    overwrites it with `atoi` of its value (src/gpst.c lines 106, 130-131). -/
def mtuFromCookie (cookies : List (String × String)) : Int :=
  match lastAssign cookies "MTU" with
  | none => -1
  | some v => atoi v

/-- Session-parameter derivation of `gpst_connect` (src/gpst.c lines
    121-149): USER and AUTH are required (-EINVAL when missing); TUNNEL
    and IP default to /ssl-tunnel-connect.sslvpn and 0.0.0.0; a missing
    MTU cookie or a non-positive value falls back to 1500. -/
def gpst_derive_params (cookies : List (String × String)) :
    Except Unit SessionParams :=
  match lastAssign cookies "USER", lastAssign cookies "AUTH" with
  | some u, some a =>
    .ok { tunnel_path := (lastAssign cookies "TUNNEL").getD "/ssl-tunnel-connect.sslvpn",
          username := u,
          authcookie := a,
          ipaddr := (lastAssign cookies "IP").getD "0.0.0.0",
          mtu := if mtuFromCookie cookies ≤ 0 then 1500 else mtuFromCookie cookies }
  | _, _ => .error ()

/-- Failure modes of `gpst_connect`, named as in the spec; the C code
    returns -EINVAL, -EPIPE or the propagated read error for these. -/
inductive ConnectError where
  | malformedCookie
  | missingCredentials
  | transportError (e : Int)
  | readInterrupted
  | readFetchError
  | gatewayHttpError
  | peerClosed
  | unexpectedResponse
  deriving DecidableEq

/-- Tunnel parameters stored into `vpninfo->ip_info` on success. -/
structure TunnelInfo where
  addr : String
  netmask : String
  mtu : Int
  deriving DecidableEq

/-- Outcome of the single up-to-256-byte `ssl_read` of the handshake
    response. -/
inductive SslReadResult where
  | failure (e : Int)
  | bytes (bs : List Nat)
  deriving DecidableEq

/-- Inputs `gpst_connect` consumes from its environment. -/
structure ConnectIn where
  cookies : Option (List (String × String))
  raw_cookie : String
  open_https : Int
  read_result : SslReadResult
  deriving DecidableEq

deriving instance DecidableEq for Except

/-- Observable outcome of `gpst_connect`: the result together with the
    transport disposition — whether `openconnect_close_https` ran and
    which monitor registrations ran. In src/gpst.c lines 197-204 the
    success path runs monitor_fd_new, monitor_read_fd and
    monitor_except_fd; there is no monitor_write_fd call anywhere in the
    function. -/
structure ConnectOut where
  result : Except ConnectError TunnelInfo
  closed : Bool
  mon_read : Bool
  mon_write : Bool
  mon_except : Bool
  deriving DecidableEq

/-- ASCII bytes of the START_TUNNEL literal compared by strncmp. -/
def startTunnelBytes : List Nat :=
  [0x53, 0x54, 0x41, 0x52, 0x54, 0x5f, 0x54, 0x55, 0x4e, 0x4e, 0x45, 0x4c]

/-- ASCII bytes of the "HTTP/" literal compared by strncmp. -/
def httpSlashBytes : List Nat := [0x48, 0x54, 0x54, 0x50, 0x2f]

/-- Linux errno for an interrupted call, as `-EINTR` in the source. -/
def EINTR : Int := 4

/-- The part of `gpst_connect` after the cookie store is available
    (src/gpst.c lines 121-207): derive parameters, open the transport,
    send the GET request (whose ssl_write result the C code ignores), read
    the response and dispatch on it. Read failures return directly and
    skip the `out:` epilogue; dispatch failures reach `out:` with ret < 0,
    closing the transport; START_TUNNEL reaches `out:` with ret = 0 and
    registers read and exception monitoring. -/
def gpst_connect_with (cs : List (String × String)) (inp : ConnectIn) : ConnectOut :=
  match gpst_derive_params cs with
  | .error _ => ⟨.error .missingCredentials, false, false, false, false⟩
  | .ok ps =>
    if inp.open_https ≠ 0 then
      ⟨.error (.transportError inp.open_https), false, false, false, false⟩
    else
      match inp.read_result with
      | .failure e =>
        if e = -EINTR then ⟨.error .readInterrupted, false, false, false, false⟩
        else ⟨.error .readFetchError, false, false, false, false⟩
      | .bytes bs =>
        if startTunnelBytes.isPrefixOf bs then
          ⟨.ok ⟨ps.ipaddr, "255.255.255.255", ps.mtu⟩, false, true, false, true⟩
        else if httpSlashBytes.isPrefixOf bs then
          ⟨.error .gatewayHttpError, true, false, false, false⟩
        else if bs.length = 0 then
          ⟨.error .peerClosed, true, false, false, false⟩
        else
          ⟨.error .unexpectedResponse, true, false, false, false⟩

/-- `gpst_connect` (src/gpst.c lines 103-207): parse the raw cookie only
    when the store is empty (a parse failure is returned directly), then
    continue with the populated store. -/
def gpst_connect (inp : ConnectIn) : ConnectOut :=
  match inp.cookies with
  | some cs => gpst_connect_with cs inp
  | none =>
    match parse_cookie inp.raw_cookie with
    | .error _ => ⟨.error .malformedCookie, false, false, false, false⟩
    | .ok cs => gpst_connect_with cs inp

end GPST
namespace GPST

theorem gpst_connect_with_missing_iff (cs : List (String × String)) (inp : ConnectIn) :
    (gpst_connect_with cs inp).result = .error .missingCredentials ↔
      gpst_derive_params cs = .error () := by
  unfold gpst_connect_with
  cases hd : gpst_derive_params cs with
  | error e => cases e; simp
  | ok ps =>
    by_cases ho : inp.open_https ≠ 0
    · simp [ho]
    · cases hr : inp.read_result with
      | failure e =>
        by_cases he : e = -EINTR <;> simp [ho, he]
      | bytes bs =>
        by_cases h1 : startTunnelBytes.isPrefixOf bs <;>
          by_cases h2 : httpSlashBytes.isPrefixOf bs <;>
            by_cases h3 : bs.length = 0 <;> simp [ho, h1, h2, h3]

/-- C6: with a populated cookie store, establish fails with
    MissingCredentials exactly when no USER or no AUTH cookie is present;
    when TUNNEL, IP or MTU is absent the derived parameters use the
    defaults /ssl-tunnel-connect.sslvpn, 0.0.0.0 and 1500; and a present
    but non-positive MTU value is likewise replaced by 1500. -/
theorem gpst_derive_defaults (cs : List (String × String)) (inp : ConnectIn)
    (hcs : inp.cookies = some cs) :
    ((gpst_connect inp).result = .error .missingCredentials ↔
      (lastAssign cs "USER" = none ∨ lastAssign cs "AUTH" = none))
  ∧ (∀ ps, gpst_derive_params cs = .ok ps →
      (lastAssign cs "TUNNEL" = none → ps.tunnel_path = "/ssl-tunnel-connect.sslvpn")
    ∧ (lastAssign cs "IP" = none → ps.ipaddr = "0.0.0.0")
    ∧ (lastAssign cs "MTU" = none → ps.mtu = 1500)
    ∧ (∀ v, lastAssign cs "MTU" = some v → atoi v ≤ 0 → ps.mtu = 1500)) := by
  have hmain : gpst_connect inp = gpst_connect_with cs inp := by
    unfold gpst_connect
    rw [hcs]
  constructor
  · rw [hmain, gpst_connect_with_missing_iff]
    unfold gpst_derive_params
    cases hu : lastAssign cs "USER" <;> cases ha : lastAssign cs "AUTH" <;> simp
  · intro ps hps
    unfold gpst_derive_params at hps
    cases hu : lastAssign cs "USER" <;> rw [hu] at hps
    case none => simp at hps
    case some u =>
      cases ha : lastAssign cs "AUTH" <;> rw [ha] at hps
      case none => simp at hps
      case some a =>
        simp only [Except.ok.injEq] at hps
        refine ⟨?_, ?_, ?_, ?_⟩
        · intro ht; rw [← hps]; simp [ht]
        · intro hi; rw [← hps]; simp [hi]
        · intro hm; rw [← hps]; simp [mtuFromCookie, hm]
        · intro v hm hv; rw [← hps]; simp [mtuFromCookie, hm, hv]

/-- C6 witness: a concrete store with USER, AUTH and MTU=0 derives the
    default tunnel path and the defaulted MTU 1500; both facts come from
    the theorem applied at this input with its hypotheses discharged. -/
theorem gpst_derive_defaults_witness :
    ({ tunnel_path := "/ssl-tunnel-connect.sslvpn", username := "u",
       authcookie := "t", ipaddr := "0.0.0.0", mtu := 1500 } : SessionParams).mtu = 1500 :=
  ((gpst_derive_defaults [("USER", "u"), ("AUTH", "t"), ("MTU", "0")]
      ⟨some [("USER", "u"), ("AUTH", "t"), ("MTU", "0")], "", 0, .bytes []⟩ rfl).2
    { tunnel_path := "/ssl-tunnel-connect.sslvpn", username := "u",
      authcookie := "t", ipaddr := "0.0.0.0", mtu := 1500 }
    (by decide)).2.2.2 "0" (by decide) (by decide)

end GPST
namespace GPST

theorem startTunnel_http_disjoint (bs : List Nat) :
    httpSlashBytes.isPrefixOf bs = true → startTunnelBytes.isPrefixOf bs = false := by
  cases bs with
  | nil => intro h; simp [httpSlashBytes, List.isPrefixOf] at h
  | cons b bs =>
    intro h
    simp only [httpSlashBytes, List.isPrefixOf, List.cons.injEq, Bool.and_eq_true, beq_iff_eq] at h
    simp only [startTunnelBytes, List.isPrefixOf, Bool.and_eq_false_iff, beq_eq_false_iff_ne]
    left
    omega

/-- C4: handshake response dispatch in `gpst_connect` (src/gpst.c lines
    169-195). A response starting with START_TUNNEL succeeds with tunnel
    parameters (local ip, netmask 255.255.255.255, mtu); one starting with
    HTTP/ fails as a gateway HTTP error; a zero-length read fails as peer
    closed; any other content is an unexpected response; and a read
    failure of -EINTR is returned as the interrupted-retry outcome without
    reaching any terminal-error or teardown path. -/
theorem gpst_connect_dispatch (inp : ConnectIn) (cs : List (String × String))
    (ps : SessionParams) (hcs : inp.cookies = some cs)
    (hps : gpst_derive_params cs = .ok ps) (hopen : inp.open_https = 0) :
    (∀ bs, inp.read_result = .bytes bs →
        (startTunnelBytes.isPrefixOf bs = true →
          (gpst_connect inp).result = .ok ⟨ps.ipaddr, "255.255.255.255", ps.mtu⟩)
      ∧ (httpSlashBytes.isPrefixOf bs = true →
          (gpst_connect inp).result = .error .gatewayHttpError)
      ∧ (bs = [] → (gpst_connect inp).result = .error .peerClosed)
      ∧ (startTunnelBytes.isPrefixOf bs = false → httpSlashBytes.isPrefixOf bs = false →
          bs ≠ [] → (gpst_connect inp).result = .error .unexpectedResponse))
  ∧ (inp.read_result = .failure (-EINTR) →
      (gpst_connect inp).result = .error .readInterrupted
        ∧ (gpst_connect inp).closed = false) := by
  have hmain : gpst_connect inp = gpst_connect_with cs inp := by
    unfold gpst_connect
    rw [hcs]
  rw [hmain]
  unfold gpst_connect_with
  rw [hps, hopen]
  constructor
  · intro bs hbs
    rw [hbs]
    refine ⟨?_, ?_, ?_, ?_⟩
    · intro h1; simp [h1]
    · intro h2
      have h1 := startTunnel_http_disjoint bs h2
      simp [h1, h2]
    · intro h0
      subst h0
      simp [startTunnelBytes, httpSlashBytes, List.isPrefixOf]
    · intro h1 h2 h3
      have hlen : bs.length ≠ 0 := by
        intro h0
        apply h3
        cases bs
        · rfl
        · simp at h0
      simp [h1, h2, hlen]
  · intro he
    rw [he]
    simp

/-- C4 witness: the dispatch evaluated at a concrete input whose response
    is exactly START_TUNNEL, with every hypothesis discharged there. -/
theorem gpst_connect_dispatch_witness :
    (gpst_connect ⟨some [("USER", "u"), ("AUTH", "t")], "", 0,
        .bytes startTunnelBytes⟩).result =
      .ok ⟨"0.0.0.0", "255.255.255.255", 1500⟩ :=
  (((gpst_connect_dispatch
      ⟨some [("USER", "u"), ("AUTH", "t")], "", 0, .bytes startTunnelBytes⟩
      [("USER", "u"), ("AUTH", "t")]
      { tunnel_path := "/ssl-tunnel-connect.sslvpn", username := "u",
        authcookie := "t", ipaddr := "0.0.0.0", mtu := 1500 }
      rfl (by decide) rfl).1 startTunnelBytes rfl).1 (by decide))

end GPST
namespace GPST

theorem gpst_connect_with_shapes (cs : List (String × String)) (inp : ConnectIn) :
    (∃ t, gpst_connect_with cs inp = ⟨.ok t, false, true, false, true⟩)
  ∨ (∃ e, gpst_connect_with cs inp = ⟨.error e, true, false, false, false⟩
      ∧ (e = .gatewayHttpError ∨ e = .peerClosed ∨ e = .unexpectedResponse))
  ∨ (∃ e, gpst_connect_with cs inp = ⟨.error e, false, false, false, false⟩
      ∧ (e = .missingCredentials ∨ (∃ d, e = .transportError d)
         ∨ e = .readInterrupted ∨ e = .readFetchError)) := by
  unfold gpst_connect_with
  cases hd : gpst_derive_params cs with
  | error e => right; right; exact ⟨.missingCredentials, rfl, Or.inl rfl⟩
  | ok ps =>
    by_cases ho : inp.open_https ≠ 0
    · right; right
      refine ⟨.transportError inp.open_https, ?_, Or.inr (Or.inl ⟨inp.open_https, rfl⟩)⟩
      simp [ho]
    · cases hr : inp.read_result with
      | failure e =>
        by_cases he : e = -EINTR
        · right; right
          refine ⟨.readInterrupted, ?_, by simp⟩
          simp [ho, he]
        · right; right
          refine ⟨.readFetchError, ?_, by simp⟩
          simp [ho, he]
      | bytes bs =>
        by_cases h1 : startTunnelBytes.isPrefixOf bs
        · left
          refine ⟨⟨ps.ipaddr, "255.255.255.255", ps.mtu⟩, ?_⟩
          simp [ho, h1]
        · by_cases h2 : httpSlashBytes.isPrefixOf bs
          · right; left
            refine ⟨.gatewayHttpError, ?_, by simp⟩
            simp [ho, h1, h2]
          · by_cases h3 : bs.length = 0
            · right; left
              refine ⟨.peerClosed, ?_, by simp⟩
              simp [ho, h1, h2, h3]
            · right; left
              refine ⟨.unexpectedResponse, ?_, by simp⟩
              simp [ho, h1, h2, h3]

theorem gpst_connect_shapes (inp : ConnectIn) :
    (∃ t, gpst_connect inp = ⟨.ok t, false, true, false, true⟩)
  ∨ (∃ e, gpst_connect inp = ⟨.error e, true, false, false, false⟩
      ∧ (e = .gatewayHttpError ∨ e = .peerClosed ∨ e = .unexpectedResponse))
  ∨ (∃ e, gpst_connect inp = ⟨.error e, false, false, false, false⟩
      ∧ (e = .malformedCookie ∨ e = .missingCredentials ∨ (∃ d, e = .transportError d)
         ∨ e = .readInterrupted ∨ e = .readFetchError)) := by
  unfold gpst_connect
  cases hc : inp.cookies with
  | some cs =>
    rcases gpst_connect_with_shapes cs inp with h | ⟨e, he, hd⟩ | ⟨e, he, hd⟩
    · left; exact h
    · right; left; exact ⟨e, he, hd⟩
    · right; right
      refine ⟨e, he, ?_⟩
      rcases hd with h | h | h | h
      · exact Or.inr (Or.inl h)
      · exact Or.inr (Or.inr (Or.inl h))
      · exact Or.inr (Or.inr (Or.inr (Or.inl h)))
      · exact Or.inr (Or.inr (Or.inr (Or.inr h)))
  | none =>
    cases hp : parse_cookie inp.raw_cookie with
    | error e =>
      right; right
      exact ⟨.malformedCookie, rfl, Or.inl rfl⟩
    | ok cs =>
      rcases gpst_connect_with_shapes cs inp with h | ⟨e, he, hd⟩ | ⟨e, he, hd⟩
      · left; exact h
      · right; left; exact ⟨e, he, hd⟩
      · right; right
        refine ⟨e, he, ?_⟩
        rcases hd with h | h | h | h
        · exact Or.inr (Or.inl h)
        · exact Or.inr (Or.inr (Or.inl h))
        · exact Or.inr (Or.inr (Or.inr (Or.inl h)))
        · exact Or.inr (Or.inr (Or.inr (Or.inr h)))

/-- C5 (amended): transport disposition of `gpst_connect`. Only the three
    handshake-dispatch failures (gateway HTTP error, peer closed,
    unexpected response) tear the transport down before returning; read
    failures — both the propagated -EINTR and the generic read error — and
    all pre-transport failures return without any teardown; success
    registers the transport for read and exception monitoring, and no path
    registers write monitoring (gpst_connect has no monitor_write_fd
    call). -/
theorem gpst_connect_disposition (inp : ConnectIn) :
    ((gpst_connect inp).result.isOk = true →
        (gpst_connect inp).closed = false ∧ (gpst_connect inp).mon_read = true
          ∧ (gpst_connect inp).mon_except = true ∧ (gpst_connect inp).mon_write = false)
  ∧ (((gpst_connect inp).result = .error .gatewayHttpError
      ∨ (gpst_connect inp).result = .error .peerClosed
      ∨ (gpst_connect inp).result = .error .unexpectedResponse) →
        (gpst_connect inp).closed = true ∧ (gpst_connect inp).mon_read = false)
  ∧ (((gpst_connect inp).result = .error .readInterrupted
      ∨ (gpst_connect inp).result = .error .readFetchError
      ∨ (gpst_connect inp).result = .error .malformedCookie
      ∨ (gpst_connect inp).result = .error .missingCredentials
      ∨ (∃ e, (gpst_connect inp).result = .error (.transportError e))) →
        (gpst_connect inp).closed = false ∧ (gpst_connect inp).mon_read = false) := by
  rcases gpst_connect_shapes inp with ⟨t, ht⟩ | ⟨e, he, hd⟩ | ⟨e, he, hd⟩
  · rw [ht]
    simp [Except.isOk]
  · rw [he]
    rcases hd with h | h | h <;> subst h <;> simp [Except.isOk, Except.toBool]
  · rw [he]
    rcases hd with h | h | ⟨d, h⟩ | h | h <;> subst h <;> simp [Except.isOk, Except.toBool]

/-- C5 witness: the amended disposition applied at the concrete successful
    handshake input, discharging the isOk hypothesis there. -/
theorem gpst_connect_disposition_witness :
    (gpst_connect ⟨some [("USER", "u"), ("AUTH", "t")], "", 0,
        .bytes startTunnelBytes⟩).closed = false :=
  ((gpst_connect_disposition
      ⟨some [("USER", "u"), ("AUTH", "t")], "", 0, .bytes startTunnelBytes⟩).1
    (by decide)).1

/-- C5 counterexample: (i) with a valid cookie store and an open transport,
    a generic read failure makes establish fail while the transport is NOT
    torn down — the C code returns -EINVAL from the read-error branch
    before the `out:` epilogue that would have closed it; (ii) a
    successful handshake registers read and exception monitoring but no
    write monitoring. Both contradict the claim as stated. -/
theorem gpst_connect_failure_without_teardown :
    ((gpst_connect ⟨some [("USER", "u"), ("AUTH", "t")], "", 0, .failure (-5)⟩).result
        = .error .readFetchError
      ∧ (gpst_connect ⟨some [("USER", "u"), ("AUTH", "t")], "", 0,
          .failure (-5)⟩).closed = false)
  ∧ ((gpst_connect ⟨some [("USER", "u"), ("AUTH", "t")], "", 0,
        .bytes startTunnelBytes⟩).result.isOk = true
      ∧ (gpst_connect ⟨some [("USER", "u"), ("AUTH", "t")], "", 0,
          .bytes startTunnelBytes⟩).mon_write = false) := by
  decide

end GPST
namespace GPST

/-- A packet: the 16-byte gpst header buffer followed by the payload
    bytes; the C `struct pkt` keeps them contiguous from `pkt->gpst.hdr`,
    with `pkt->len` the payload length. -/
structure Pkt where
  hdr : List Nat
  data : List Nat
  deriving DecidableEq

/-- Result of one `ssl_nonblock_read` call: a negative error, or the bytes
    read (the empty list being the no-more-data 0 sentinel). -/
inductive ReadEv where
  | rerr : ReadEv
  | rdata : List Nat → ReadEv
  deriving DecidableEq

/-- The mainloop-visible mutable state of `struct openconnect_info`. -/
structure MLState where
  ssl_fd_ok : Bool
  current_ssl_pkt : Option Pkt
  incoming_queue : List Pkt
  outgoing_queue : List Pkt
  dtls_connected : Bool
  last_rx : Nat
  last_tx : Nat
  quit_reason : Option String
  deriving DecidableEq

/-- Outcome of the read loop: fell through to the write phases with the
    accumulated work flag, hit a read error (reconnect), or terminated the
    session with a quit reason. -/
inductive RP where
  | done : MLState → Bool → RP
  | rerror : MLState → RP
  | term : MLState → RP
  deriving DecidableEq

/-- The read loop of `gpst_mainloop` (src/gpst.c lines 219-281): a 0 read
    ends the phase, a negative read goes to reconnection, fewer than 16
    bytes is the terminal short-packet path, a header-validation failure
    is the terminal unknown_pkt path, and a valid frame stamps last_rx and
    queues the packet (header bytes plus payload) on the incoming queue,
    setting work_done. -/
def readPhase (now : Nat) (s : MLState) (work : Bool) : List ReadEv → RP
  | [] => .done s work
  | .rerr :: _ => .rerror s
  | .rdata buf :: rest =>
    if buf.length = 0 then .done s work
    else if buf.length < 16 then
      .term {s with quit_reason := some "Short packet received"}
    else
      match gpst_decode buf with
      | .error _ => .term {s with quit_reason := some "Unknown packet received"}
      | .ok (_, pl) =>
        readPhase now
          {s with last_rx := now,
                  incoming_queue := s.incoming_queue ++ [⟨buf.take 16, pl⟩]}
          true rest

/-- Outcome of the write phases: a normal return value, the reconnect
    path, or the terminal internal-error path — each with the final state
    and the trace of byte strings handed to `ssl_nonblock_write`. -/
inductive WL where
  | finished : Int → MLState → List (List Nat) → WL
  | reconn : MLState → List (List Nat) → WL
  | term : MLState → List (List Nat) → WL
  deriving DecidableEq

/-- The write trace of a write-phase outcome. -/
def WL.trace : WL → List (List Nat)
  | .finished _ _ t => t
  | .reconn _ t => t
  | .term _ t => t

/-- The state of a write-phase outcome. -/
def WL.state : WL → MLState
  | .finished _ s _ => s
  | .reconn s _ => s
  | .term s _ => s

/-- The packet the write phase operates on: the in-flight packet if one
    exists; otherwise the queue-service condition of src/gpst.c lines
    326-335 — only while DTLS is not the connected channel, dequeue the
    next outgoing packet and store the frame header into its hdr bytes. -/
def getCurrent (s : MLState) : MLState × Option Pkt :=
  match s.current_ssl_pkt with
  | some p => (s, some p)
  | none =>
    if s.dtls_connected then (s, none)
    else
      match s.outgoing_queue with
      | [] => (s, none)
      | p :: rest =>
        ({s with outgoing_queue := rest,
                 current_ssl_pkt := some ⟨encodeHdr p.data.length, p.data⟩},
         some ⟨encodeHdr p.data.length, p.data⟩)

/-- The write-retry and queue-service phases (src/gpst.c lines 284-342,
    `handle_outgoing` and the dequeue loop). Each attempt stamps last_tx
    (and unmonitors the write fd, not modelled), then writes hdr ++ data —
    the len + 16 bytes starting at pkt->gpst.hdr — consuming one
    write-oracle entry (an exhausted oracle acts as the 0 would-block
    result). A negative result goes to reconnection, 0 returns work_done
    with the packet still in flight, a byte count different from len + 16
    is the terminal internal error, and a full write frees the packet and
    services the queue again. -/
def writeLoop (now : Nat) (work : Bool) (s : MLState) (writes : List Int)
    (trace : List (List Nat)) : WL :=
  match getCurrent s with
  | (s0, none) => .finished (if work then 1 else 0) s0 trace
  | (s0, some p) =>
    match writes with
    | [] => .finished (if work then 1 else 0) {s0 with last_tx := now}
        (trace ++ [p.hdr ++ p.data])
    | w :: ws =>
      if w < 0 then .reconn {s0 with last_tx := now} (trace ++ [p.hdr ++ p.data])
      else if w = 0 then .finished (if work then 1 else 0) {s0 with last_tx := now}
        (trace ++ [p.hdr ++ p.data])
      else if w ≠ (p.data.length + 16 : Int) then
        .term {s0 with last_tx := now, quit_reason := some "Internal error"}
          (trace ++ [p.hdr ++ p.data])
      else writeLoop now work {s0 with last_tx := now, current_ssl_pkt := none} ws
        (trace ++ [p.hdr ++ p.data])

/-- Result of one `gpst_mainloop` invocation: the return value, the final
    state, and the byte strings passed to `ssl_nonblock_write`, in call
    order. -/
structure MLResult where
  retval : Int
  state : MLState
  trace : List (List Nat)
  deriving DecidableEq

/-- The `do_reconnect` path (src/gpst.c lines 301-308): `ssl_reconnect`
    lives in ssl.c, so its result is an oracle; failure records the quit
    reason and returns the error, success returns 1. -/
def do_reconnect (s : MLState) (rres : Int) (trace : List (List Nat)) : MLResult :=
  if rres ≠ 0 then ⟨rres, {s with quit_reason := some "GPST reconnect failed"}, trace⟩
  else ⟨1, s, trace⟩

/-- `gpst_mainloop` (src/gpst.c lines 209-360): reconnect when the ssl fd
    is gone; otherwise run the read loop and then the write phases, with
    read results, write results and the reconnect result as oracles. -/
def gpst_mainloop (now : Nat) (s : MLState) (reads : List ReadEv)
    (writes : List Int) (rres : Int) : MLResult :=
  if s.ssl_fd_ok = false then do_reconnect s rres []
  else
    match readPhase now s false reads with
    | .term s1 => ⟨1, s1, []⟩
    | .rerror s1 => do_reconnect s1 rres []
    | .done s1 work =>
      match writeLoop now work s1 writes [] with
      | .finished c s2 tr => ⟨c, s2, tr⟩
      | .reconn s2 tr => do_reconnect s2 rres tr
      | .term s2 tr => ⟨1, s2, tr⟩

end GPST
namespace GPST

theorem getCurrent_inflight (s : MLState) (p : Pkt) (hp : s.current_ssl_pkt = some p) :
    getCurrent s = (s, some p) := by
  unfold getCurrent
  rw [hp]

theorem getCurrent_idle (s : MLState) (hp : s.current_ssl_pkt = none)
    (h : s.dtls_connected = true ∨ s.outgoing_queue = []) :
    getCurrent s = (s, none) := by
  unfold getCurrent
  rw [hp]
  rcases h with h | h
  · rw [h]
    simp
  · rw [h]
    by_cases hd : s.dtls_connected <;> simp [hd]

theorem getCurrent_none_state (s s0 : MLState) (h : getCurrent s = (s0, none)) :
    s0 = s ∧ s.current_ssl_pkt = none := by
  unfold getCurrent at h
  cases hp : s.current_ssl_pkt with
  | some p => rw [hp] at h; simp at h
  | none =>
    rw [hp] at h
    refine ⟨?_, rfl⟩
    by_cases hd : s.dtls_connected
    · rw [if_pos hd] at h
      injection h with h1 h2
      rw [h1]
    · rw [if_neg hd] at h
      cases hq : s.outgoing_queue with
      | nil => rw [hq] at h; injection h with h1 h2; rw [h1]
      | cons q qs => rw [hq] at h; simp at h

theorem readPhase_done_preserves (now : Nat) :
    ∀ (reads : List ReadEv) (s : MLState) (work : Bool) (s1 : MLState) (w1 : Bool),
      readPhase now s work reads = .done s1 w1 →
      s1.current_ssl_pkt = s.current_ssl_pkt ∧ s1.outgoing_queue = s.outgoing_queue
        ∧ s1.dtls_connected = s.dtls_connected ∧ s1.ssl_fd_ok = s.ssl_fd_ok
        ∧ s1.last_tx = s.last_tx := by
  intro reads
  induction reads with
  | nil =>
    intro s work s1 w1 h
    unfold readPhase at h
    injection h with h1 h2
    rw [h1]
    exact ⟨rfl, rfl, rfl, rfl, rfl⟩
  | cons ev rest ih =>
    intro s work s1 w1 h
    cases ev with
    | rerr => unfold readPhase at h; simp at h
    | rdata buf =>
      unfold readPhase at h
      by_cases h0 : buf.length = 0
      · rw [if_pos h0] at h
        injection h with h1 h2
        rw [h1]
        exact ⟨rfl, rfl, rfl, rfl, rfl⟩
      · rw [if_neg h0] at h
        by_cases h16 : buf.length < 16
        · rw [if_pos h16] at h
          simp at h
        · rw [if_neg h16] at h
          cases hd : gpst_decode buf with
          | error e => rw [hd] at h; simp at h
          | ok pr =>
            rw [hd] at h
            have := ih _ _ _ _ h
            simpa using this

theorem writeLoop_trace_extends (now : Nat) (work : Bool) :
    ∀ (writes : List Int) (s : MLState) (trace : List (List Nat)),
      ∃ t, (writeLoop now work s writes trace).trace = trace ++ t := by
  intro writes
  induction writes with
  | nil =>
    intro s trace
    cases hgc : getCurrent s with
    | mk s0 po =>
      cases po with
      | none => exact ⟨[], by unfold writeLoop; rw [hgc]; simp [WL.trace]⟩
      | some p => exact ⟨[p.hdr ++ p.data], by unfold writeLoop; rw [hgc]; simp [WL.trace]⟩
  | cons w ws ih =>
    intro s trace
    cases hgc : getCurrent s with
    | mk s0 po =>
      cases po with
      | none => exact ⟨[], by unfold writeLoop; rw [hgc]; simp [WL.trace]⟩
      | some p =>
        by_cases hneg : w < 0
        · exact ⟨[p.hdr ++ p.data], by unfold writeLoop; rw [hgc]; simp [hneg, WL.trace]⟩
        · by_cases hz : w = 0
          · exact ⟨[p.hdr ++ p.data], by unfold writeLoop; rw [hgc]; simp [hneg, hz, WL.trace]⟩
          · by_cases hne : w ≠ (p.data.length + 16 : Int)
            · exact ⟨[p.hdr ++ p.data], by unfold writeLoop; rw [hgc]; simp [hneg, hz, hne, WL.trace]⟩
            · obtain ⟨t, ht⟩ := ih {s0 with last_tx := now, current_ssl_pkt := none}
                (trace ++ [p.hdr ++ p.data])
              refine ⟨[p.hdr ++ p.data] ++ t, ?_⟩
              unfold writeLoop
              rw [hgc]
              simp only [if_neg hneg, if_neg hz, if_neg hne]
              rw [ht, List.append_assoc]

theorem writeLoop_inflight_first (now : Nat) (work : Bool) (s : MLState)
    (writes : List Int) (trace : List (List Nat)) (p : Pkt)
    (hp : s.current_ssl_pkt = some p) :
    ∃ t, (writeLoop now work s writes trace).trace = trace ++ [p.hdr ++ p.data] ++ t := by
  have hgc := getCurrent_inflight s p hp
  cases writes with
  | nil => exact ⟨[], by unfold writeLoop; rw [hgc]; simp [WL.trace]⟩
  | cons w ws =>
    by_cases hneg : w < 0
    · exact ⟨[], by unfold writeLoop; rw [hgc]; simp [hneg, WL.trace]⟩
    · by_cases hz : w = 0
      · exact ⟨[], by unfold writeLoop; rw [hgc]; simp [hneg, hz, WL.trace]⟩
      · by_cases hne : w ≠ (p.data.length + 16 : Int)
        · exact ⟨[], by unfold writeLoop; rw [hgc]; simp [hneg, hz, hne, WL.trace]⟩
        · obtain ⟨t, ht⟩ := writeLoop_trace_extends now work ws
            {s with last_tx := now, current_ssl_pkt := none} (trace ++ [p.hdr ++ p.data])
          refine ⟨t, ?_⟩
          unfold writeLoop
          rw [hgc]
          simp only [if_neg hneg, if_neg hz, if_neg hne]
          rw [ht]

theorem writeLoop_last_tx (now : Nat) (work : Bool) :
    ∀ (writes : List Int) (s : MLState) (trace : List (List Nat)),
      (s.current_ssl_pkt ≠ none ∨ s.last_tx = now) →
      (writeLoop now work s writes trace).state.last_tx = now := by
  intro writes
  induction writes with
  | nil =>
    intro s trace hyp
    cases hgc : getCurrent s with
    | mk s0 po =>
      cases po with
      | none =>
        obtain ⟨hs0, hcur⟩ := getCurrent_none_state s s0 hgc
        have hlast : s.last_tx = now := by
          rcases hyp with h | h
          · exact absurd hcur h
          · exact h
        unfold writeLoop
        rw [hgc]
        simp [WL.state, hs0, hlast]
      | some p =>
        unfold writeLoop
        rw [hgc]
        simp [WL.state]
  | cons w ws ih =>
    intro s trace hyp
    cases hgc : getCurrent s with
    | mk s0 po =>
      cases po with
      | none =>
        obtain ⟨hs0, hcur⟩ := getCurrent_none_state s s0 hgc
        have hlast : s.last_tx = now := by
          rcases hyp with h | h
          · exact absurd hcur h
          · exact h
        unfold writeLoop
        rw [hgc]
        simp [WL.state, hs0, hlast]
      | some p =>
        unfold writeLoop
        rw [hgc]
        by_cases hneg : w < 0
        · simp [hneg, WL.state]
        · by_cases hz : w = 0
          · simp [hneg, hz, WL.state]
          · by_cases hne : w ≠ (p.data.length + 16 : Int)
            · simp [hneg, hz, hne, WL.state]
            · simp only [if_neg hneg, if_neg hz, if_neg hne]
              exact ih _ _ (Or.inr rfl)

end GPST
namespace GPST

theorem writeLoop_idle (now : Nat) (work : Bool) (s : MLState) (writes : List Int)
    (trace : List (List Nat)) (hp : s.current_ssl_pkt = none)
    (hidle : s.dtls_connected = true ∨ s.outgoing_queue = []) :
    writeLoop now work s writes trace = .finished (if work then 1 else 0) s trace := by
  have hgc := getCurrent_idle s hp hidle
  cases writes with
  | nil => unfold writeLoop; rw [hgc]
  | cons w ws => unfold writeLoop; rw [hgc]

theorem writeLoop_wouldblock (now : Nat) (work : Bool) (s : MLState) (ws : List Int)
    (trace : List (List Nat)) (p : Pkt) (hp : s.current_ssl_pkt = some p) :
    writeLoop now work s (0 :: ws) trace =
      .finished (if work then 1 else 0) {s with last_tx := now}
        (trace ++ [p.hdr ++ p.data]) := by
  have hgc := getCurrent_inflight s p hp
  unfold writeLoop
  rw [hgc]
  norm_num

theorem writeLoop_negative (now : Nat) (work : Bool) (s : MLState) (w : Int)
    (ws : List Int) (trace : List (List Nat)) (p : Pkt)
    (hp : s.current_ssl_pkt = some p) (hw : w < 0) :
    writeLoop now work s (w :: ws) trace =
      .reconn {s with last_tx := now} (trace ++ [p.hdr ++ p.data]) := by
  have hgc := getCurrent_inflight s p hp
  unfold writeLoop
  rw [hgc]
  simp [hw]

theorem writeLoop_short (now : Nat) (work : Bool) (s : MLState) (w : Int)
    (ws : List Int) (trace : List (List Nat)) (p : Pkt)
    (hp : s.current_ssl_pkt = some p) (h0 : 0 < w)
    (hne : w ≠ (p.data.length + 16 : Int)) :
    writeLoop now work s (w :: ws) trace =
      .term {s with last_tx := now, quit_reason := some "Internal error"}
        (trace ++ [p.hdr ++ p.data]) := by
  have hgc := getCurrent_inflight s p hp
  unfold writeLoop
  rw [hgc]
  have hneg : ¬ w < 0 := by omega
  have hz : ¬ w = 0 := by omega
  simp [hneg, hz, hne]

theorem writeLoop_success_idle (now : Nat) (work : Bool) (s : MLState)
    (ws : List Int) (trace : List (List Nat)) (p : Pkt)
    (hp : s.current_ssl_pkt = some p)
    (hidle : s.dtls_connected = true ∨ s.outgoing_queue = []) :
    writeLoop now work s (((p.data.length : Int) + 16) :: ws) trace =
      .finished (if work then 1 else 0)
        {s with last_tx := now, current_ssl_pkt := none}
        (trace ++ [p.hdr ++ p.data]) := by
  have hgc := getCurrent_inflight s p hp
  unfold writeLoop
  rw [hgc]
  have hneg : ¬ ((p.data.length : Int) + 16 < 0) := by omega
  have hz : ¬ ((p.data.length : Int) + 16 = 0) := by omega
  have hne : ¬ ((p.data.length : Int) + 16 ≠ (p.data.length + 16 : Int)) := by omega
  simp only [if_neg hneg, if_neg hz, if_neg hne]
  apply writeLoop_idle
  · rfl
  · rcases hidle with h | h
    · left; exact h
    · right; exact h

theorem gpst_mainloop_decomp (now : Nat) (s : MLState) (reads : List ReadEv)
    (writes : List Int) (rres : Int) (s1 : MLState) (w1 : Bool)
    (hfd : s.ssl_fd_ok = true)
    (h1 : readPhase now s false reads = .done s1 w1) :
    (gpst_mainloop now s reads writes rres).trace = (writeLoop now w1 s1 writes []).trace
  ∧ (gpst_mainloop now s reads writes rres).state.current_ssl_pkt
      = (writeLoop now w1 s1 writes []).state.current_ssl_pkt
  ∧ (gpst_mainloop now s reads writes rres).state.last_tx
      = (writeLoop now w1 s1 writes []).state.last_tx
  ∧ (gpst_mainloop now s reads writes rres).state.outgoing_queue
      = (writeLoop now w1 s1 writes []).state.outgoing_queue
  ∧ (gpst_mainloop now s reads writes rres).state.ssl_fd_ok
      = (writeLoop now w1 s1 writes []).state.ssl_fd_ok := by
  unfold gpst_mainloop
  rw [hfd, h1]
  cases hw : writeLoop now w1 s1 writes [] with
  | finished c s2 tr => simp [hw, WL.state, WL.trace]
  | reconn s2 tr =>
    unfold do_reconnect
    by_cases hr : rres ≠ 0 <;> simp [hw, hr, WL.state, WL.trace]
  | term s2 tr => simp [hw, WL.state, WL.trace]

end GPST
namespace GPST

/-- C3: write-retry invariant. With a packet in flight at mainloop entry
    and the first write attempt reporting would-block (0), the invocation
    performs exactly one write attempt whose bytes are precisely the
    stored header and payload of the in-flight packet, leaves that packet
    in the slot unmodified, and the next invocation's first write attempt
    supplies byte-for-byte identical content. The header bytes are
    whatever was stored when the packet was dequeued — the theorem holds
    for an arbitrary hdr field, so the retry path provably never
    re-encodes or mutates them. -/
theorem gpst_retry_same_bytes (now now2 : Nat) (s : MLState) (p : Pkt)
    (reads reads2 : List ReadEv) (ws writes2 : List Int) (rres rres2 : Int)
    (s1 s2 : MLState) (w1 w2 : Bool)
    (hfd : s.ssl_fd_ok = true)
    (hp : s.current_ssl_pkt = some p)
    (h1 : readPhase now s false reads = .done s1 w1)
    (h2 : readPhase now2 (gpst_mainloop now s reads (0 :: ws) rres).state false reads2
        = .done s2 w2) :
    (gpst_mainloop now s reads (0 :: ws) rres).trace = [p.hdr ++ p.data]
  ∧ (gpst_mainloop now s reads (0 :: ws) rres).state.current_ssl_pkt = some p
  ∧ (gpst_mainloop now2 (gpst_mainloop now s reads (0 :: ws) rres).state reads2
        writes2 rres2).trace.head? = some (p.hdr ++ p.data) := by
  obtain ⟨hc, hq, hd, hf, hl⟩ := readPhase_done_preserves now reads s false s1 w1 h1
  have hp1 : s1.current_ssl_pkt = some p := by rw [hc, hp]
  have hwb := writeLoop_wouldblock now w1 s1 ws [] p hp1
  obtain ⟨ht, hcur, _, _, hfd2⟩ :=
    gpst_mainloop_decomp now s reads (0 :: ws) rres s1 w1 hfd h1
  have htrace : (gpst_mainloop now s reads (0 :: ws) rres).trace = [p.hdr ++ p.data] := by
    rw [ht, hwb]
    simp [WL.trace]
  have hcur2 : (gpst_mainloop now s reads (0 :: ws) rres).state.current_ssl_pkt = some p := by
    rw [hcur, hwb]
    simpa [WL.state] using hp1
  refine ⟨htrace, hcur2, ?_⟩
  have hfd2' : (gpst_mainloop now s reads (0 :: ws) rres).state.ssl_fd_ok = true := by
    rw [hfd2, hwb]
    simp only [WL.state]
    rw [hf, hfd]
  obtain ⟨hc2, _, _, _, _⟩ :=
    readPhase_done_preserves now2 reads2 _ false s2 w2 h2
  have hp2 : s2.current_ssl_pkt = some p := by
    rw [hc2, hcur2]
  obtain ⟨ht2, _, _, _, _⟩ :=
    gpst_mainloop_decomp now2 _ reads2 writes2 rres2 s2 w2 hfd2' h2
  rw [ht2]
  obtain ⟨t, htt⟩ := writeLoop_inflight_first now2 w2 s2 writes2 [] p hp2
  rw [htt]
  simp

/-- C3 witness: a concrete in-flight packet with a deliberately scrambled
    header is retried with exactly those stored bytes across two
    invocations, with every hypothesis discharged concretely. -/
theorem gpst_retry_same_bytes_witness :
    (gpst_mainloop 5 ⟨true, some ⟨List.replicate 16 7, [1, 2]⟩, [], [], false, 0, 0, none⟩
        [] [0] 0).trace = [List.replicate 16 7 ++ [1, 2]]
  ∧ (gpst_mainloop 5 ⟨true, some ⟨List.replicate 16 7, [1, 2]⟩, [], [], false, 0, 0, none⟩
        [] [0] 0).state.current_ssl_pkt = some ⟨List.replicate 16 7, [1, 2]⟩
  ∧ (gpst_mainloop 6
        (gpst_mainloop 5 ⟨true, some ⟨List.replicate 16 7, [1, 2]⟩, [], [], false, 0, 0, none⟩
          [] [0] 0).state [] [] 0).trace.head? = some (List.replicate 16 7 ++ [1, 2]) :=
  gpst_retry_same_bytes 5 6 ⟨true, some ⟨List.replicate 16 7, [1, 2]⟩, [], [], false, 0, 0, none⟩
    ⟨List.replicate 16 7, [1, 2]⟩ [] [] [] [] 0 0
    ⟨true, some ⟨List.replicate 16 7, [1, 2]⟩, [], [], false, 0, 0, none⟩
    (gpst_mainloop 5 ⟨true, some ⟨List.replicate 16 7, [1, 2]⟩, [], [], false, 0, 0, none⟩
      [] [0] 0).state false false rfl rfl rfl rfl

end GPST
namespace GPST

/-- C9 (amended): the last-send timestamp is stamped at the entry of the
    write-retry phase (src/gpst.c line 289), so EVERY write attempt —
    failed, would-block, short or successful — updates it, not only a full
    success; the in-flight slot is retained on a failed, would-block or
    short write and cleared exactly by a full write success. -/
theorem gpst_last_tx_on_attempt (now : Nat) (s : MLState) (reads : List ReadEv)
    (w0 : Int) (ws : List Int) (rres : Int) (s1 : MLState) (w1 : Bool) (p : Pkt)
    (hfd : s.ssl_fd_ok = true)
    (hp : s.current_ssl_pkt = some p)
    (h1 : readPhase now s false reads = .done s1 w1) :
    (gpst_mainloop now s reads (w0 :: ws) rres).state.last_tx = now
  ∧ (w0 = 0 →
      (gpst_mainloop now s reads (w0 :: ws) rres).state.current_ssl_pkt = some p)
  ∧ (w0 < 0 →
      (gpst_mainloop now s reads (w0 :: ws) rres).state.current_ssl_pkt = some p)
  ∧ (0 < w0 → w0 ≠ (p.data.length + 16 : Int) →
      (gpst_mainloop now s reads (w0 :: ws) rres).state.current_ssl_pkt = some p)
  ∧ (w0 = (p.data.length + 16 : Int) →
      (s.dtls_connected = true ∨ s.outgoing_queue = []) →
      (gpst_mainloop now s reads (w0 :: ws) rres).state.current_ssl_pkt = none) := by
  obtain ⟨hc, hq, hd, hf, hl⟩ := readPhase_done_preserves now reads s false s1 w1 h1
  have hp1 : s1.current_ssl_pkt = some p := by rw [hc, hp]
  obtain ⟨ht, hcur, hlast, hqueue, hfd2⟩ :=
    gpst_mainloop_decomp now s reads (w0 :: ws) rres s1 w1 hfd h1
  refine ⟨?_, ?_, ?_, ?_, ?_⟩
  · rw [hlast]
    apply writeLoop_last_tx
    left
    rw [hp1]
    simp
  · intro hz
    subst hz
    rw [hcur, writeLoop_wouldblock now w1 s1 ws [] p hp1]
    simpa [WL.state] using hp1
  · intro hneg
    rw [hcur, writeLoop_negative now w1 s1 w0 ws [] p hp1 hneg]
    simpa [WL.state] using hp1
  · intro hpos hne
    rw [hcur, writeLoop_short now w1 s1 w0 ws [] p hp1 hpos hne]
    simpa [WL.state] using hp1
  · intro hw hidle
    subst hw
    have hidle1 : s1.dtls_connected = true ∨ s1.outgoing_queue = [] := by
      rcases hidle with h | h
      · left; rw [hd, h]
      · right; rw [hq, h]
    rw [hcur, writeLoop_success_idle now w1 s1 ws [] p hp1 hidle1]
    simp [WL.state]

/-- C9 witness: the amended claim applied at a concrete state with an
    in-flight packet and a would-block write, all hypotheses discharged
    there. -/
theorem gpst_last_tx_on_attempt_witness :
    (gpst_mainloop 5 ⟨true, some ⟨encodeHdr 2, [1, 2]⟩, [], [], false, 0, 0, none⟩
        [] [0] 0).state.last_tx = 5 :=
  (gpst_last_tx_on_attempt 5 ⟨true, some ⟨encodeHdr 2, [1, 2]⟩, [], [], false, 0, 0, none⟩
    [] 0 [] 0 ⟨true, some ⟨encodeHdr 2, [1, 2]⟩, [], [], false, 0, 0, none⟩ false
    ⟨encodeHdr 2, [1, 2]⟩ rfl rfl rfl).1

/-- C9 counterexample: a would-block write (result 0) still updates the
    last-send timestamp, because src/gpst.c line 289 stamps
    vpninfo->ssl_times.last_tx at the entry of handle_outgoing, before
    ssl_nonblock_write runs. Here the only write attempt returns 0 and the
    packet stays in flight, yet last_tx changes from 0 to 5 — while the
    claim says a zero-length write must not update the timestamp. -/
theorem gpst_last_tx_updated_on_wouldblock :
    (gpst_mainloop 5 ⟨true, some ⟨encodeHdr 2, [1, 2]⟩, [], [], false, 0, 0, none⟩
        [] [0] 0).state.last_tx = 5
  ∧ (gpst_mainloop 5 ⟨true, some ⟨encodeHdr 2, [1, 2]⟩, [], [], false, 0, 0, none⟩
        [] [0] 0).state.current_ssl_pkt = some ⟨encodeHdr 2, [1, 2]⟩
  ∧ (5 : Nat) ≠ 0 := by
  decide

/-- C10: a connected DTLS channel suppresses only the dequeuing of new
    packets from the outbound queue (the loop condition at src/gpst.c line
    326); a packet already in the in-flight slot is still retried and
    written to the primary SSL transport, and with no packet in flight
    nothing is dequeued and the outgoing queue is left untouched. -/
theorem gpst_dtls_suppresses_only_dequeue (now : Nat) (s : MLState)
    (reads : List ReadEv) (writes : List Int) (rres : Int) (s1 : MLState)
    (w1 : Bool) (p : Pkt)
    (hfd : s.ssl_fd_ok = true) (hdtls : s.dtls_connected = true)
    (h1 : readPhase now s false reads = .done s1 w1) :
    (s.current_ssl_pkt = some p →
      (gpst_mainloop now s reads writes rres).trace.head? = some (p.hdr ++ p.data))
  ∧ (s.current_ssl_pkt = none →
      (gpst_mainloop now s reads writes rres).trace = []
      ∧ (gpst_mainloop now s reads writes rres).state.outgoing_queue
          = s.outgoing_queue) := by
  obtain ⟨hc, hq, hd, hf, hl⟩ := readPhase_done_preserves now reads s false s1 w1 h1
  obtain ⟨ht, hcur, hlast, hqueue, hfd2⟩ :=
    gpst_mainloop_decomp now s reads writes rres s1 w1 hfd h1
  constructor
  · intro hp
    have hp1 : s1.current_ssl_pkt = some p := by rw [hc, hp]
    obtain ⟨t, htt⟩ := writeLoop_inflight_first now w1 s1 writes [] p hp1
    rw [ht, htt]
    simp
  · intro hp
    have hp1 : s1.current_ssl_pkt = none := by rw [hc, hp]
    have hd1 : s1.dtls_connected = true := by rw [hd, hdtls]
    have hidle := writeLoop_idle now w1 s1 writes [] hp1 (Or.inl hd1)
    constructor
    · rw [ht, hidle]
      simp [WL.trace]
    · rw [hqueue, hidle]
      simp [WL.state]
      rw [hq]

/-- C10 witness: with DTLS connected and a concrete in-flight packet, the
    packet is still written to the SSL transport; all hypotheses are
    discharged at this input. -/
theorem gpst_dtls_suppresses_only_dequeue_witness :
    (gpst_mainloop 5 ⟨true, some ⟨encodeHdr 1, [9]⟩, [], [⟨[], [3]⟩], true, 0, 0, none⟩
        [] [0] 0).trace.head? = some (encodeHdr 1 ++ [9]) :=
  (gpst_dtls_suppresses_only_dequeue 5
    ⟨true, some ⟨encodeHdr 1, [9]⟩, [], [⟨[], [3]⟩], true, 0, 0, none⟩
    [] [0] 0 ⟨true, some ⟨encodeHdr 1, [9]⟩, [], [⟨[], [3]⟩], true, 0, 0, none⟩ false
    ⟨encodeHdr 1, [9]⟩ rfl rfl rfl).1 rfl

end GPST
